import Mathlib

/-!
Shallow embedding of `sys-utils/lsipc.c` (util-linux).

The file embeds, faithfully to the C source: the column registry (`coldescs`),
column-name resolution (`column_name_to_id`), default column selection (the
`add_column` sequence in `main`), the time-formatting policy (`make_time` with
the lazily fetched global `now`), the three per-class row projectors
(`do_msg` / `do_shm` / `do_sem` cell switches, with their mutable
`pw` / `gr` lookup caches), the pretty renderer (`print_pretty`), option
parsing (the `getopt` loop together with the `excl` mutual-exclusion table),
and the semaphore summary (`do_sem_global`).

External collaborators (the system identity directory `getpwuid` / `getgrgid`,
`strftime` / `localtime` based formatting, `strmode`, human-readable size
formatting, process command lookup, `gettimeofday`) are abstracted as fields
of environment structures; machine integers are modelled as `Nat` (all the
quantities involved are non-negative in the source) and C ids as `Int` where
the sign matters (`--id`).
-/

namespace Lsipc

/- Column ids, mirroring the anonymous enum in lsipc.c (values 0..28). -/
def COL_KEY : Nat := 0
def COL_ID : Nat := 1
def COL_OWNER : Nat := 2
def COL_PERMS : Nat := 3
def COL_CUID : Nat := 4
def COL_CGID : Nat := 5
def COL_UID : Nat := 6
def COL_GID : Nat := 7
def COL_CTIME : Nat := 8
def COLDESC_IDX_GEN_LAST : Nat := 8
def COLDESC_IDX_MSG_FIRST : Nat := 9
def COL_USEDBYTES : Nat := 9
def COL_MSGS : Nat := 10
def COL_SEND : Nat := 11
def COL_RECV : Nat := 12
def COL_LSPID : Nat := 13
def COL_LRPID : Nat := 14
def COLDESC_IDX_MSG_LAST : Nat := 14
def COLDESC_IDX_SHM_FIRST : Nat := 15
def COL_SIZE : Nat := 15
def COL_NATTCH : Nat := 16
def COL_STATUS : Nat := 17
def COL_ATTACH : Nat := 18
def COL_DETACH : Nat := 19
def COL_COMMAND : Nat := 20
def COL_CPID : Nat := 21
def COL_LPID : Nat := 22
def COLDESC_IDX_SHM_LAST : Nat := 22
def COLDESC_IDX_SEM_FIRST : Nat := 23
def COL_NSEMS : Nat := 23
def COL_OTIME : Nat := 24
def COLDESC_IDX_SEM_LAST : Nat := 24
def COLDESC_IDX_SUM_FIRST : Nat := 25
def COL_RESOURCE : Nat := 25
def COL_DESC : Nat := 26
def COL_USED : Nat := 27
def COL_LIMIT : Nat := 28
def COLDESC_IDX_SUM_LAST : Nat := 28

/-- One column-registry entry: the canonical uppercase wire name and the
pretty-mode label (`name` / `pretty_name` fields of `struct lsipc_coldesc`). -/
structure ColDesc where
  name : String
  pretty : String
deriving DecidableEq

/-- The column registry, mirroring the `coldescs[]` array (names and pretty
names; width hints and smartcols flags are rendering hints irrelevant to the
claims and omitted). -/
def coldescs : List ColDesc :=
  [ ⟨"KEY", "Key"⟩, ⟨"ID", "ID"⟩, ⟨"OWNER", "Owner"⟩, ⟨"PERMS", "Permissions"⟩,
    ⟨"CUID", "CUID"⟩, ⟨"CGID", "CGID"⟩, ⟨"UID", "UID"⟩, ⟨"GID", "GID"⟩,
    ⟨"CTIME", "Last change"⟩,
    ⟨"USEDBYTES", "Bytes used"⟩, ⟨"MSGS", "Messages"⟩, ⟨"SEND", "Msg sent"⟩,
    ⟨"RECV", "Msg received"⟩, ⟨"LSPID", "Msg sender"⟩, ⟨"LRPID", "Msg receiver"⟩,
    ⟨"SIZE", "Segment size"⟩, ⟨"NATTCH", "Attached processes"⟩, ⟨"STATUS", "Status"⟩,
    ⟨"ATTACH", "Attach time"⟩, ⟨"DETACH", "Detach time"⟩, ⟨"COMMAND", "Creator command"⟩,
    ⟨"CPID", "Creator PID"⟩, ⟨"LPID", "Last user PID"⟩,
    ⟨"NSEMS", "Semaphores"⟩, ⟨"OTIME", "Last operation"⟩,
    ⟨"RESOURCE", "Resource"⟩, ⟨"DESCRIPTION", "Description"⟩, ⟨"USED", "Used"⟩,
    ⟨"LIMIT", "Limit"⟩ ]

/-- The pretty-mode label of a column id (used by `print_pretty`). -/
def prettyNameOf (c : Nat) : String := (coldescs.getD c ⟨"", ""⟩).pretty

/-- The canonical wire name of a column id. -/
def colName (c : Nat) : String := (coldescs.getD c ⟨"", ""⟩).name

/-- The active resource class: message queues (`-q`), shared memory (`-m`),
semaphores (`-s`) or the `--global` summary. -/
inductive Res
  | msg
  | shm
  | sem
  | sum
deriving DecidableEq, Fintype

/-- The `LOWER` bound installed for a resource class by the option switch in
`main`. -/
def lowerOf : Res → Nat
  | .msg => COLDESC_IDX_MSG_FIRST
  | .shm => COLDESC_IDX_SHM_FIRST
  | .sem => COLDESC_IDX_SEM_FIRST
  | .sum => COLDESC_IDX_SUM_FIRST

/-- The `UPPER` bound installed for a resource class by the option switch in
`main`. -/
def upperOf : Res → Nat
  | .msg => COLDESC_IDX_MSG_LAST
  | .shm => COLDESC_IDX_SHM_LAST
  | .sem => COLDESC_IDX_SEM_LAST
  | .sum => COLDESC_IDX_SUM_LAST

/-- C `tolower` restricted to ASCII, as used by `strncasecmp` in the C locale. -/
def cToLower (c : Char) : Char :=
  if 'A' ≤ c ∧ c ≤ 'Z' then Char.ofNat (c.toNat + 32) else c

/-- The characters of a string mapped through ASCII `tolower`. -/
def lowerChars (s : String) : List Char := s.toList.map cToLower

/-- The match test of `column_name_to_id`:
`!strncasecmp(name, cn, namesz) && !*(cn + namesz)` with `namesz` the length
of the supplied token, i.e. a case-insensitive comparison of the first
`namesz` bytes together with the requirement that the registry name end
exactly there — a case-insensitive exact match. -/
def nameMatches (name cn : String) : Bool := lowerChars name == lowerChars cn

/-- The two warning diagnostics `column_name_to_id` can emit before returning
`-1`: `unknown column` and `column does not apply to the specified IPC`. -/
inductive ColErr
  | unknown
  | notApply
deriving DecidableEq

deriving instance DecidableEq for Except

/-- `column_name_to_id` of lsipc.c: scan the registry for a case-insensitive
exact match; ids above `COL_CTIME` (the generic band) must additionally lie
in the active `[LOWER, UPPER]` applicability range. Failure (`return -1`
after a `warnx`) is modelled as an `Except.error` carrying the diagnostic. -/
def column_name_to_id (lower upper : Nat) (name : String) : Except ColErr Nat :=
  match coldescs.findIdx? (fun c => nameMatches name c.name) with
  | some i =>
      if i > COL_CTIME then
        if lower ≤ i ∧ i ≤ upper then .ok i else .error .notApply
      else .ok i
  | none => .error .unknown

/-- Modelled from the spec: `string_to_idarray` (lib/strutils.c, not under
`src/`) resolves each name of the comma-separated `--output` list in order
through the callback, appending the resolved ids in input order and failing
the whole run on the first name the callback rejects. The input is taken
already split at commas. -/
def string_to_idarray (lower upper : Nat) : List String → Except ColErr (List Nat)
  | [] => .ok []
  | n :: ns =>
    match column_name_to_id lower upper n with
    | .error e => .error e
    | .ok i =>
      match string_to_idarray lower upper ns with
      | .error e => .error e
      | .ok is => .ok (i :: is)

/-- The default column selection computed by `main` when no `--output` list is
given and the mode is not pretty: the literal `add_column` call sequence, with
the creator block guarded by `show_creat`, the per-class time columns guarded
by `show_time`, and the `--global` branch selecting the four summary columns. -/
def defaultColumns (cls : Res) (showCreat showTime : Bool) : List Nat :=
  Id.run do
    let mut cols : Array Nat := #[]
    match cls with
    | .sum =>
      cols := cols.push COL_RESOURCE
      cols := cols.push COL_DESC
      cols := cols.push COL_USED
      cols := cols.push COL_LIMIT
    | _ =>
      cols := cols.push COL_KEY
      cols := cols.push COL_ID
      cols := cols.push COL_PERMS
      cols := cols.push COL_OWNER
      if showCreat then
        cols := cols.push COL_CUID
        cols := cols.push COL_CGID
        cols := cols.push COL_UID
        cols := cols.push COL_GID
      match cls with
      | .msg =>
        cols := cols.push COL_USEDBYTES
        cols := cols.push COL_MSGS
        if showTime then
          cols := cols.push COL_SEND
          cols := cols.push COL_RECV
          cols := cols.push COL_CTIME
        cols := cols.push COL_LSPID
        cols := cols.push COL_LRPID
      | .shm =>
        cols := cols.push COL_SIZE
        cols := cols.push COL_NATTCH
        cols := cols.push COL_STATUS
        if showTime then
          cols := cols.push COL_ATTACH
          cols := cols.push COL_DETACH
        cols := cols.push COL_CTIME
        cols := cols.push COL_CPID
        cols := cols.push COL_LPID
        cols := cols.push COL_COMMAND
      | .sem =>
        cols := cols.push COL_NSEMS
        if showTime then
          cols := cols.push COL_OTIME
          cols := cols.push COL_CTIME
      | .sum => pure ()
    return cols.toList

/-- The "every column" selection used for `--id` detail queries: the full
registry in declaration order. -/
def allColumns : List Nat := List.range coldescs.length

/- Formatting helpers. -/

/-- A run of `n` spaces. -/
def spaces (n : Nat) : String := String.mk (List.replicate n ' ')

/-- Left-justify a string in a field of width `w` (C `%-ws`). -/
def padR (w : Nat) (s : String) : String := s ++ spaces (w - s.length)

/-- C `"0x%08x"`: lowercase hexadecimal zero-padded to eight digits after the
`0x` marker. -/
def fmtHex08 (n : Nat) : String :=
  let ds := Nat.toDigits 16 n
  "0x" ++ String.mk (List.replicate (8 - ds.length) '0') ++ String.mk ds

/-- C `"%#o"`: octal with a leading `0` marker on non-zero values. -/
def fmtOct (n : Nat) : String :=
  if n = 0 then "0" else "0" ++ String.mk (Nat.toDigits 8 n)

/- Time model. -/

/-- The three usable time modes (`TIME_SHORT` / `TIME_FULL` / `TIME_ISO`).
`TIME_INVALID` is unreachable in the source: `ctl->time_mode` is initialised
to `TIME_SHORT` and only overwritten by `parse_time_mode`, which returns one
of the three values or exits; it is therefore left out of the embedding. -/
inductive TimeMode
  | short
  | full
  | iso
deriving DecidableEq

/-- External time collaborators: `gettimeofday` readings indexed by call
number, and the `localtime_r` / `asctime_r` / `strftime` based renderings of a
timestamp used by `make_time` ("%H:%M", "%b%d", "%Y-%b%d", ISO-8601, and the
trimmed `asctime` form). -/
structure TimeEnv where
  clock : Nat → Nat
  asctimeTrimmed : Nat → String
  fmtHHMM : Nat → String
  fmtMonDay : Nat → String
  fmtYearMonDay : Nat → String
  fmtIso : Nat → String

/-- The global `static struct timeval now` together with a count of the
`gettimeofday` calls made so far: `now = 0` is the unset sentinel, exactly as
`now.tv_sec == 0` is in the source. -/
structure NowState where
  now : Nat
  ticks : Nat
deriving DecidableEq

/-- The lazy fetch shared by `date_is_today` and `date_is_thisyear`:
`if (now.tv_sec == 0) gettimeofday(&now, NULL);`. -/
def fetchNow (env : TimeEnv) (st : NowState) : Nat × NowState :=
  if st.now = 0 then (env.clock st.ticks, ⟨env.clock st.ticks, st.ticks + 1⟩)
  else (st.now, st)

/-- `date_is_today`: the timestamp and the reference time fall in the same
86400-second bucket since the epoch. -/
def date_is_today (env : TimeEnv) (t : Nat) (st : NowState) : Bool × NowState :=
  let (nowv, st') := fetchNow env st
  (t / (3600 * 24) == nowv / (3600 * 24), st')

/-- `date_is_thisyear`: the 365-day-bucket approximation of "same calendar
year". -/
def date_is_thisyear (env : TimeEnv) (t : Nat) (st : NowState) : Bool × NowState :=
  let (nowv, st') := fetchNow env st
  (t / (3600 * 24 * 365) == nowv / (3600 * 24 * 365), st')

/-- `make_time`: full mode strips the trailing newline of `asctime`; short
mode picks time-of-day, month+day or year+month+day by the two relative-date
tests; iso mode formats with a timezone offset. The lazily initialised global
`now` is threaded as explicit state. -/
def make_time (env : TimeEnv) (mode : TimeMode) (t : Nat) (st : NowState) :
    String × NowState :=
  match mode with
  | .full => (env.asctimeTrimmed t, st)
  | .short =>
    let (td, st1) := date_is_today env t st
    if td then (env.fmtHHMM t, st1)
    else
      let (ty, st2) := date_is_thisyear env t st1
      if ty then (env.fmtMonDay t, st2)
      else (env.fmtYearMonDay t, st2)
  | .iso => (env.fmtIso t, st)

/- Record model. -/

/-- A system directory entry for a user (`struct passwd`, the fields read). -/
structure Passwd where
  pw_uid : Nat
  pw_name : String
deriving DecidableEq

/-- A system directory entry for a group (`struct group`, the fields read). -/
structure Group where
  gr_gid : Nat
  gr_name : String
deriving DecidableEq

/-- The external collaborators of the projection layer: directory lookups,
`strmode`, `size_to_human_string`, `proc_get_command`, and the time
collaborators. -/
structure Env where
  getpwuid : Nat → Option Passwd
  getgrgid : Nat → Option Group
  strmode : Nat → String
  size_to_human : Nat → String
  proc_get_command : Nat → String
  timeEnv : TimeEnv

/-- The shared `struct ipc_stat`-like permission block (`msg_perm` /
`shm_perm` / `sem_perm`): key, id, owner and creator uid/gid, mode bits. -/
structure IpcPerm where
  key : Nat
  id : Nat
  uid : Nat
  gid : Nat
  cuid : Nat
  cgid : Nat
  mode : Nat
deriving DecidableEq

/-- One message-queue record (`struct msg_data`, the fields read). -/
structure MsgData where
  msg_perm : IpcPerm
  q_cbytes : Nat
  q_qnum : Nat
  q_stime : Nat
  q_rtime : Nat
  q_ctime : Nat
  q_lspid : Nat
  q_lrpid : Nat
deriving DecidableEq

/-- One shared-memory record (`struct shm_data`, the fields read). -/
structure ShmData where
  shm_perm : IpcPerm
  shm_segsz : Nat
  shm_nattch : Nat
  shm_atim : Nat
  shm_dtim : Nat
  shm_ctim : Nat
  shm_cprid : Nat
  shm_lprid : Nat
deriving DecidableEq

/-- One semaphore-set record (`struct sem_data`, the fields read). -/
structure SemData where
  sem_perm : IpcPerm
  sem_nsems : Nat
  sem_otime : Nat
  sem_ctime : Nat
deriving DecidableEq

/- Linux shared-memory status mode bits (from the system headers). -/
def SHM_DEST : Nat := 0o1000
def SHM_LOCKED : Nat := 0o2000
def SHM_HUGETLB : Nat := 0o4000
def SHM_NORESERVE : Nat := 0o10000

/-- The `COL_STATUS` cell builder of `do_shm`, translated statement by
statement: `comma` is set only in the `SHM_DEST` branch, and each later
branch inserts a separating comma only when `comma` is already set. -/
def shmStatus (mode : Nat) : String :=
  let arg := ""
  let comma := mode &&& SHM_DEST ≠ 0
  let arg := if mode &&& SHM_DEST ≠ 0 then arg ++ "dest" else arg
  let arg := if mode &&& SHM_LOCKED ≠ 0 then
      (if comma then arg ++ "," else arg) ++ "locked" else arg
  let arg := if mode &&& SHM_HUGETLB ≠ 0 then
      (if comma then arg ++ "," else arg) ++ "hugetlb" else arg
  let arg := if mode &&& SHM_NORESERVE ≠ 0 then
      (if comma then arg ++ "," else arg) ++ "noreserve" else arg
  arg

/- Row projection. -/

/-- The relevant flags of `struct lsipc_control`. -/
structure Ctl where
  noheadings : Bool
  notrunc : Bool
  json : Bool
  bytes : Bool
  numperms : Bool
  time_mode : TimeMode
deriving DecidableEq

/-- The mutable state of a `do_msg` / `do_shm` projection pass: the owner
`pw` / `gr` lookup caches (locals of the C functions, `NULL`-initialised) and
the global lazily fetched `now`. -/
structure PwGrSt where
  pw : Option Passwd
  gr : Option Group
  tst : NowState

/-- The cache refresh performed at the top of each record iteration:
`if (!(pw && pw->pw_uid == uid)) pw = getpwuid(uid);`. -/
def refreshPw (env : Env) (pw : Option Passwd) (uid : Nat) : Option Passwd :=
  if (match pw with | some p => p.pw_uid == uid | none => false) then pw
  else env.getpwuid uid

/-- The cache refresh for groups:
`if (!(gr && gr->gr_gid == gid)) gr = getgrgid(gid);`. -/
def refreshGr (env : Env) (gr : Option Group) (gid : Nat) : Option Group :=
  if (match gr with | some g => g.gr_gid == gid | none => false) then gr
  else env.getgrgid gid

/-- Reading `p->pw_name` through a possibly `NULL` pointer. When the pointer
is `NULL` the C program dereferences a null pointer (a crash); that outcome is
modelled by a distinguished marker string. -/
def pw_name_deref : Option Passwd → String
  | some p => p.pw_name
  | none => "NULL-DEREF"

/-- Reading `g->gr_name` through a possibly `NULL` pointer (see
`pw_name_deref`). -/
def gr_name_deref : Option Group → String
  | some g => g.gr_name
  | none => "NULL-DEREF"

/-- One arm of the `do_msg` column switch: the cell derived for column `col`
of record `r` (`none` when the arm never calls `scols_line_set_data`, leaving
the cell unset), together with the updated pass state. Translated case by
case from the source; in particular:
the `COL_PERMS` arm calls `scols_line_set_data` only in its symbolic branch,
so `--numeric-perms` leaves the cell unset for message queues;
the `COL_CUID` / `COL_CGID` arms overwrite the owner caches
(`pw = getpwuid(cuid)` / `gr = getgrgid(cgid)`) when creator and owner ids
differ; and the numeric fallback of `COL_CGID` prints `msg_perm.cuid`. -/
def msgCell (env : Env) (ctl : Ctl) (r : MsgData) (col : Nat) (s : PwGrSt) :
    Option String × PwGrSt :=
  if col = COL_KEY then (some (fmtHex08 r.msg_perm.key), s)
  else if col = COL_ID then (some (toString r.msg_perm.id), s)
  else if col = COL_OWNER then
    (some (match s.pw with
           | some p => p.pw_name
           | none => toString r.msg_perm.uid), s)
  else if col = COL_PERMS then
    (if ctl.numperms then none
     else some (env.strmode (r.msg_perm.mode &&& 0o777)), s)
  else if col = COL_CUID then
    (if r.msg_perm.cuid = r.msg_perm.uid then
      (some (pw_name_deref s.pw), s)
    else
      match env.getpwuid r.msg_perm.cuid with
      | some p => (some p.pw_name, { s with pw := some p })
      | none => (some (toString r.msg_perm.cuid), { s with pw := none }))
  else if col = COL_CGID then
    (if r.msg_perm.cgid = r.msg_perm.gid then
      (some (gr_name_deref s.gr), s)
    else
      match env.getgrgid r.msg_perm.cgid with
      | some g => (some g.gr_name, { s with gr := some g })
      | none => (some (toString r.msg_perm.cuid), { s with gr := none }))
  else if col = COL_UID then
    (some (match s.pw with
           | some p => p.pw_name
           | none => toString r.msg_perm.uid), s)
  else if col = COL_GID then
    (some (match s.gr with
           | some g => g.gr_name
           | none => toString r.msg_perm.gid), s)
  else if col = COL_CTIME then
    (if r.q_ctime ≠ 0 then
      let (str, tst') := make_time env.timeEnv ctl.time_mode r.q_ctime s.tst
      (some str, { s with tst := tst' })
    else (none, s))
  else if col = COL_USEDBYTES then (some (toString r.q_cbytes), s)
  else if col = COL_MSGS then (some (toString r.q_qnum), s)
  else if col = COL_SEND then
    (if r.q_stime ≠ 0 then
      let (str, tst') := make_time env.timeEnv ctl.time_mode r.q_stime s.tst
      (some str, { s with tst := tst' })
    else (none, s))
  else if col = COL_RECV then
    (if r.q_rtime ≠ 0 then
      let (str, tst') := make_time env.timeEnv ctl.time_mode r.q_rtime s.tst
      (some str, { s with tst := tst' })
    else (none, s))
  else if col = COL_LSPID then (some (toString r.q_lspid), s)
  else if col = COL_LRPID then (some (toString r.q_lrpid), s)
  else (none, s)

/-- The inner `while (n < ncolumns)` loop of `do_msg`: one cell per selected
column, threading the pass state left to right. -/
def msgCells (env : Env) (ctl : Ctl) (r : MsgData) :
    List Nat → PwGrSt → List (Option String) × PwGrSt
  | [], s => ([], s)
  | c :: cs, s =>
    let (v, s') := msgCell env ctl r c s
    let (vs, s'') := msgCells env ctl r cs s'
    (v :: vs, s'')

/-- One record iteration of `do_msg`: the record-entry cache refreshes
followed by the column loop. -/
def msgRow (env : Env) (ctl : Ctl) (cols : List Nat) (r : MsgData) (s : PwGrSt) :
    List (Option String) × PwGrSt :=
  msgCells env ctl r cols
    { s with pw := refreshPw env s.pw r.msg_perm.uid,
             gr := refreshGr env s.gr r.msg_perm.gid }

/-- The record loop of `do_msg` over the records it actually visits. -/
def msgRows (env : Env) (ctl : Ctl) (cols : List Nat) :
    List MsgData → PwGrSt → List (List (Option String)) × PwGrSt
  | [], s => ([], s)
  | r :: rs, s =>
    let (row, s') := msgRow env ctl cols r s
    let (rows, s'') := msgRows env ctl cols rs s'
    (row :: rows, s'')

/-- The records visited by the
`for (p = head; p->next != NULL || id > -1; p = p->next)` loop with its
`if (id > -1) break` footer: in detail mode just the head node, otherwise
every node that still has a successor (the trailing sentinel node of the
query result is skipped). -/
def loopRecords {α : Type} (detail : Bool) : List α → List α
  | [] => []
  | r :: rs =>
    if detail then [r]
    else
      match rs with
      | [] => []
      | _ :: _ => r :: loopRecords detail rs

/-- `do_msg`: on a failed query (`ipc_msg_get_info(id, ...) < 1`, modelled as
`none`) warn when a concrete id was requested and contribute no rows;
otherwise project each visited record. Returns the rows, the warnings
printed to standard error, and the final `now` state. -/
def do_msg (env : Env) (ctl : Ctl) (id : Int) (cols : List Nat)
    (info : Option (List MsgData)) (tst : NowState) :
    List (List (Option String)) × List String × NowState :=
  match info with
  | none => ([], if id > -1 then ["id " ++ toString id ++ " not found"] else [], tst)
  | some chain =>
    let (rows, s') := msgRows env ctl cols (loopRecords (id > -1) chain)
      ⟨none, none, tst⟩
    (rows, [], s'.tst)

/-- One arm of the `do_shm` column switch (see `msgCell` for the shared
conventions). `COL_PERMS` sets its cell in both branches here; the
`COL_CUID` / `COL_CGID` cache overwrites and the `COL_CGID` numeric fallback
printing `shm_perm.cuid` mirror the source. -/
def shmCell (env : Env) (ctl : Ctl) (r : ShmData) (col : Nat) (s : PwGrSt) :
    Option String × PwGrSt :=
  if col = COL_KEY then (some (fmtHex08 r.shm_perm.key), s)
  else if col = COL_ID then (some (toString r.shm_perm.id), s)
  else if col = COL_OWNER then
    (some (match s.pw with
           | some p => p.pw_name
           | none => toString r.shm_perm.uid), s)
  else if col = COL_PERMS then
    (some (if ctl.numperms then fmtOct (r.shm_perm.mode &&& 0o777)
           else env.strmode (r.shm_perm.mode &&& 0o777)), s)
  else if col = COL_CUID then
    (if r.shm_perm.cuid = r.shm_perm.uid then
      (some (pw_name_deref s.pw), s)
    else
      match env.getpwuid r.shm_perm.cuid with
      | some p => (some p.pw_name, { s with pw := some p })
      | none => (some (toString r.shm_perm.cuid), { s with pw := none }))
  else if col = COL_CGID then
    (if r.shm_perm.cgid = r.shm_perm.gid then
      (some (gr_name_deref s.gr), s)
    else
      match env.getgrgid r.shm_perm.cgid with
      | some g => (some g.gr_name, { s with gr := some g })
      | none => (some (toString r.shm_perm.cuid), { s with gr := none }))
  else if col = COL_UID then
    (some (match s.pw with
           | some p => p.pw_name
           | none => toString r.shm_perm.uid), s)
  else if col = COL_GID then
    (some (match s.gr with
           | some g => g.gr_name
           | none => toString r.shm_perm.gid), s)
  else if col = COL_CTIME then
    (if r.shm_ctim ≠ 0 then
      let (str, tst') := make_time env.timeEnv ctl.time_mode r.shm_ctim s.tst
      (some str, { s with tst := tst' })
    else (none, s))
  else if col = COL_SIZE then
    (some (if ctl.bytes then toString r.shm_segsz
           else env.size_to_human r.shm_segsz), s)
  else if col = COL_NATTCH then (some (toString r.shm_nattch), s)
  else if col = COL_STATUS then (some (shmStatus r.shm_perm.mode), s)
  else if col = COL_ATTACH then
    (if r.shm_atim ≠ 0 then
      let (str, tst') := make_time env.timeEnv ctl.time_mode r.shm_atim s.tst
      (some str, { s with tst := tst' })
    else (none, s))
  else if col = COL_DETACH then
    (if r.shm_dtim ≠ 0 then
      let (str, tst') := make_time env.timeEnv ctl.time_mode r.shm_dtim s.tst
      (some str, { s with tst := tst' })
    else (none, s))
  else if col = COL_CPID then (some (toString r.shm_cprid), s)
  else if col = COL_LPID then (some (toString r.shm_lprid), s)
  else if col = COL_COMMAND then (some (env.proc_get_command r.shm_cprid), s)
  else (none, s)

/-- The inner column loop of `do_shm`. -/
def shmCells (env : Env) (ctl : Ctl) (r : ShmData) :
    List Nat → PwGrSt → List (Option String) × PwGrSt
  | [], s => ([], s)
  | c :: cs, s =>
    let (v, s') := shmCell env ctl r c s
    let (vs, s'') := shmCells env ctl r cs s'
    (v :: vs, s'')

/-- One record iteration of `do_shm`. -/
def shmRow (env : Env) (ctl : Ctl) (cols : List Nat) (r : ShmData) (s : PwGrSt) :
    List (Option String) × PwGrSt :=
  shmCells env ctl r cols
    { s with pw := refreshPw env s.pw r.shm_perm.uid,
             gr := refreshGr env s.gr r.shm_perm.gid }

/-- The record loop of `do_shm`. -/
def shmRows (env : Env) (ctl : Ctl) (cols : List Nat) :
    List ShmData → PwGrSt → List (List (Option String)) × PwGrSt
  | [], s => ([], s)
  | r :: rs, s =>
    let (row, s') := shmRow env ctl cols r s
    let (rows, s'') := shmRows env ctl cols rs s'
    (row :: rows, s'')

/-- `do_shm` (see `do_msg` for the shared conventions). -/
def do_shm (env : Env) (ctl : Ctl) (id : Int) (cols : List Nat)
    (info : Option (List ShmData)) (tst : NowState) :
    List (List (Option String)) × List String × NowState :=
  match info with
  | none => ([], if id > -1 then ["id " ++ toString id ++ " not found"] else [], tst)
  | some chain =>
    let (rows, s') := shmRows env ctl cols (loopRecords (id > -1) chain)
      ⟨none, none, tst⟩
    (rows, [], s'.tst)

/-- The mutable state of a `do_sem` pass: `do_sem` keeps separate owner
(`pw` / `gr`) and creator (`cpw` / `cgr`) caches. -/
structure SemSt where
  pw : Option Passwd
  gr : Option Group
  cpw : Option Passwd
  cgr : Option Group
  tst : NowState

/-- One arm of the `do_sem` column switch. The creator columns use the
dedicated `cpw` / `cgr` caches (refreshed per record, never overwritten
mid-record), but the numeric fallback of `COL_CGID` still prints
`sem_perm.cuid`, as in the source. -/
def semCell (env : Env) (ctl : Ctl) (r : SemData) (col : Nat) (s : SemSt) :
    Option String × SemSt :=
  if col = COL_KEY then (some (fmtHex08 r.sem_perm.key), s)
  else if col = COL_ID then (some (toString r.sem_perm.id), s)
  else if col = COL_OWNER then
    (some (match s.pw with
           | some p => p.pw_name
           | none => toString r.sem_perm.uid), s)
  else if col = COL_PERMS then
    (some (if ctl.numperms then fmtOct (r.sem_perm.mode &&& 0o777)
           else env.strmode (r.sem_perm.mode &&& 0o777)), s)
  else if col = COL_CUID then
    (some (match s.cpw with
           | some p => p.pw_name
           | none => toString r.sem_perm.cuid), s)
  else if col = COL_CGID then
    (some (match s.cgr with
           | some g => g.gr_name
           | none => toString r.sem_perm.cuid), s)
  else if col = COL_UID then
    (some (match s.pw with
           | some p => p.pw_name
           | none => toString r.sem_perm.uid), s)
  else if col = COL_GID then
    (some (match s.gr with
           | some g => g.gr_name
           | none => toString r.sem_perm.gid), s)
  else if col = COL_CTIME then
    (if r.sem_ctime ≠ 0 then
      let (str, tst') := make_time env.timeEnv ctl.time_mode r.sem_ctime s.tst
      (some str, { s with tst := tst' })
    else (none, s))
  else if col = COL_NSEMS then (some (toString r.sem_nsems), s)
  else if col = COL_OTIME then
    (if r.sem_otime ≠ 0 then
      let (str, tst') := make_time env.timeEnv ctl.time_mode r.sem_otime s.tst
      (some str, { s with tst := tst' })
    else (none, s))
  else (none, s)

/-- The inner column loop of `do_sem`. -/
def semCells (env : Env) (ctl : Ctl) (r : SemData) :
    List Nat → SemSt → List (Option String) × SemSt
  | [], s => ([], s)
  | c :: cs, s =>
    let (v, s') := semCell env ctl r c s
    let (vs, s'') := semCells env ctl r cs s'
    (v :: vs, s'')

/-- One record iteration of `do_sem`: all four caches are refreshed at record
entry (`pw` / `gr` for the owner, `cpw` / `cgr` for the creator). -/
def semRow (env : Env) (ctl : Ctl) (cols : List Nat) (r : SemData) (s : SemSt) :
    List (Option String) × SemSt :=
  semCells env ctl r cols
    { s with pw := refreshPw env s.pw r.sem_perm.uid,
             gr := refreshGr env s.gr r.sem_perm.gid,
             cpw := refreshPw env s.cpw r.sem_perm.cuid,
             cgr := refreshGr env s.cgr r.sem_perm.cgid }

/-- The record loop of `do_sem`. -/
def semRows (env : Env) (ctl : Ctl) (cols : List Nat) :
    List SemData → SemSt → List (List (Option String)) × SemSt
  | [], s => ([], s)
  | r :: rs, s =>
    let (row, s') := semRow env ctl cols r s
    let (rows, s'') := semRows env ctl cols rs s'
    (row :: rows, s'')

/-- `do_sem` (see `do_msg` for the shared conventions; the free-form
per-element breakdown attached as row userdata in detail mode is modelled
separately, as the optional trailing block consumed by `print_pretty`). -/
def do_sem (env : Env) (ctl : Ctl) (id : Int) (cols : List Nat)
    (info : Option (List SemData)) (tst : NowState) :
    List (List (Option String)) × List String × NowState :=
  match info with
  | none => ([], if id > -1 then ["id " ++ toString id ++ " not found"] else [], tst)
  | some chain =>
    let (rows, s') := semRows env ctl cols (loopRecords (id > -1) chain)
      ⟨none, none, none, none, tst⟩
    (rows, [], s'.tst)

/- Summary mode. -/

/-- The system-wide limits read by the summary functions (the fields used by
`do_sem_global`). -/
structure IpcLimits where
  semmni : Nat
  semmns : Nat
deriving DecidableEq

/-- `global_set_data`: one summary line, with a cell per selected column
(`RESOURCE`, `DESCRIPTION`, `USED`, `LIMIT`; other selected ids leave their
cell unset). -/
def global_set_data (cols : List Nat) (resource desc : String)
    (used limit : Nat) : List (Option String) :=
  cols.map fun c =>
    if c = COL_RESOURCE then some resource
    else if c = COL_DESC then some desc
    else if c = COL_USED then some (toString used)
    else if c = COL_LIMIT then some (toString limit)
    else none

/-- The counting loop of `do_sem_global`, translated literally: the walk
visits every node that still has a successor, increments `nsets` once per
visited node, and adds `semds->sem_nsems` — the element count of the *head*
node `semds`, not of the visited node `semdsp` — to `nsems` each time. -/
def semLoopCounts (semds : SemData) : List SemData → Nat × Nat
  | [] => (0, 0)
  | [_] => (0, 0)
  | _ :: rs =>
    let (nsets, nsems) := semLoopCounts semds rs
    (nsets + 1, nsems + semds.sem_nsems)

/-- `do_sem_global`: emit the `SEMMNS` line then the `SEMMNI` line, with the
used counters produced by `semLoopCounts` (both zero when the enumeration
query fails or returns no node). -/
def do_sem_global (cols : List Nat) (lim : IpcLimits)
    (info : Option (List SemData)) : List (List (Option String)) :=
  let counts :=
    match info with
    | some (hd :: tl) => semLoopCounts hd (hd :: tl)
    | _ => ((0 : Nat), (0 : Nat))
  [ global_set_data cols "SEMMNS" "Total number of semaphores" counts.2 lim.semmns,
    global_set_data cols "SEMMNI" "Number of Semaphore IDs" counts.1 lim.semmni ]

/- Pretty output. -/

/-- The number of padding spaces produced by
`printf("%s:%*c%-36s\n", hstr, 35 - (int)strlen(hstr), ' ', dstr)` for the
`%*c` conversion: the space right-justified in a field of width
`35 - strlen(hstr)` (at least one character is always printed, and a negative
width left-justifies in the absolute width). -/
def prettyPad (label : String) : Nat :=
  max (Int.natAbs (35 - (label.length : Int))) 1

/-- One `Label:` / value line of `print_pretty`. -/
def prettyPair (label dstr : String) : String :=
  label ++ ":" ++ spaces (prettyPad label) ++ padR 36 dstr ++ "\n"

/-- `print_pretty`: walk the selected columns of the first (only) table line,
printing one `Label:` / value pair for each cell whose data is set
(`if (dstr) printf(...)`), then print the line's free-form userdata block
when present. With no line at all (`ln == NULL`) every cell read yields no
data and the userdata block is skipped. The output is modelled as the list
of printed pieces. -/
def print_pretty (cols : List Nat)
    (line : Option (List (Option String) × Option String)) : List String :=
  match line with
  | none => []
  | some (cells, ud) =>
    ((cols.zip cells).filterMap fun cd =>
      cd.2.map fun d => prettyPair (prettyNameOf cd.1) d)
    ++ (match ud with | some e => [e] | none => [])

/- Option parsing. -/

/- Output-mode values of the `outmode` enum. -/
def OUT_COLON : Nat := 1
def OUT_EXPORT : Nat := 2
def OUT_NEWLINE : Nat := 3
def OUT_RAW : Nat := 4
def OUT_NUL : Nat := 5
def OUT_PRETTY : Nat := 6

/-- The command-line options of lsipc (long and short spellings identified;
argument-carrying options carry their parsed argument). -/
inductive Opt
  | bytes
  | colonSeparate
  | creator
  | export
  | global
  | id (n : Int)
  | json
  | newline
  | noheadings
  | notruncate
  | numericPerms
  | output (names : List String)
  | print0
  | queues
  | raw
  | semaphores
  | shmems
  | time
  | timeFormat (m : TimeMode)
deriving DecidableEq

/-- The `getopt` code of an option, as used in the `excl[]` table (`'J'`,
`'e'`, `'n'`, `'r'`, `'z'`, `OPT_COLON = CHAR_MAX + 1`, ...). -/
def optChar : Opt → Nat
  | .bytes => 98
  | .colonSeparate => 128
  | .creator => 99
  | .export => 101
  | .global => 103
  | .id _ => 105
  | .json => 74
  | .newline => 110
  | .noheadings => 129
  | .notruncate => 130
  | .numericPerms => 80
  | .output _ => 111
  | .print0 => 122
  | .queues => 113
  | .raw => 114
  | .semaphores => 115
  | .shmems => 109
  | .time => 116
  | .timeFormat _ => 131

/-- The `excl[]` mutual-exclusion table of `main`: the output-mode group
`{J, e, n, r, z, colon}`, the groups `{c, g, i, t}` and `{c, i, o, t}`, and
the resource group `{m, q, s}`. `--id` (`i`) is not in the output-mode
group. -/
def excl : List (List Nat) := [[74, 101, 110, 114, 122, 128], [99, 103, 105, 116], [99, 105, 111, 116], [109, 113, 115]]

/-- Modelled from the spec: `err_exclusive_options` (include/optutils.h, not
under `src/`). For each mutual-exclusion row the first seen member is
recorded in the row's status slot; a later occurrence of a *different* member
of the same row is a fatal configuration error, while repeating the same
option is allowed. -/
def exclStep (c : Nat) : List (List Nat) → List (Option Nat) → Except Unit (List (Option Nat))
  | [], _ => .ok []
  | row :: rows, st =>
    let slot := st.headD none
    let rest := st.tail
    if c ∈ row then
      match slot with
      | none => (exclStep c rows rest).map (some c :: ·)
      | some c' =>
        if c' = c then (exclStep c rows rest).map (slot :: ·)
        else .error ()
    else (exclStep c rows rest).map (slot :: ·)

/-- The state accumulated by the `getopt_long` loop of `main`: the global
`outmode` (0 when no mode-setting option was seen), the requested id, the
resource/selection flags, the `lsipc_control` bits and the `excl` status
slots. -/
structure ParseSt where
  outmode : Nat := 0
  id : Int := -1
  json : Bool := false
  bytes : Bool := false
  numperms : Bool := false
  noheadings : Bool := false
  notrunc : Bool := false
  showTime : Bool := false
  showCreat : Bool := false
  global : Bool := false
  msg : Bool := false
  shm : Bool := false
  sem : Bool := false
  lower : Nat := 0
  upper : Nat := 0
  optO : Bool := false
  opts : List String := []
  time_mode : TimeMode := .short
  exclSt : List (Option Nat) := [none, none, none, none]
deriving DecidableEq

/-- The `switch (opt)` body of the option loop, one case per option. `--id`
stores the id *and* sets `outmode = OUT_PRETTY`; `--json` sets only the
`ctl->json` bit and leaves `outmode` untouched. -/
def applyOpt (st : ParseSt) : Opt → ParseSt
  | .bytes => { st with bytes := true }
  | .id n => { st with id := n, outmode := OUT_PRETTY }
  | .colonSeparate => { st with outmode := OUT_COLON }
  | .export => { st with outmode := OUT_EXPORT }
  | .raw => { st with outmode := OUT_RAW }
  | .output l => { st with optO := true, opts := l }
  | .global => { st with global := true,
                         lower := COLDESC_IDX_SUM_FIRST, upper := COLDESC_IDX_SUM_LAST }
  | .queues => { st with msg := true,
                         lower := COLDESC_IDX_MSG_FIRST, upper := COLDESC_IDX_MSG_LAST }
  | .shmems => { st with shm := true,
                         lower := COLDESC_IDX_SHM_FIRST, upper := COLDESC_IDX_SHM_LAST }
  | .newline => { st with outmode := OUT_NEWLINE }
  | .numericPerms => { st with numperms := true }
  | .semaphores => { st with sem := true,
                             lower := COLDESC_IDX_SEM_FIRST, upper := COLDESC_IDX_SEM_LAST }
  | .notruncate => { st with notrunc := true }
  | .noheadings => { st with noheadings := true }
  | .timeFormat m => { st with time_mode := m }
  | .json => { st with json := true }
  | .time => { st with showTime := true }
  | .creator => { st with showCreat := true }
  | .print0 => { st with outmode := OUT_NUL }

/-- The option loop: each option first passes `err_exclusive_options` (fatal
on a conflict) and is then applied to the state, in command-line order. -/
def parseOpts : List Opt → ParseSt → Except Unit ParseSt
  | [], st => .ok st
  | o :: os, st =>
    match exclStep (optChar o) excl st.exclSt with
    | .error e => .error e
    | .ok es => parseOpts os (applyOpt { st with exclSt := es } o)

/-- Parsing a full command line from the initial state (`outmode = 0`,
`id = -1`, `time_mode = TIME_SHORT`). -/
def parseLsipc (opts : List Opt) : Except Unit ParseSt := parseOpts opts {}

/-- The six members of the output-mode exclusion group, as options. -/
def modeGroupOpts : List Opt :=
  [.json, .export, .newline, .raw, .print0, .colonSeparate]

/-- The five options that write `outmode` besides `--id` (every member of the
exclusion group except `--json`). -/
def modeWriters : List Opt :=
  [.export, .newline, .raw, .print0, .colonSeparate]

/-- The `outmode` value a mode-writing option stores. -/
def modeSetBy : Opt → Nat
  | .colonSeparate => OUT_COLON
  | .export => OUT_EXPORT
  | .newline => OUT_NEWLINE
  | .raw => OUT_RAW
  | .print0 => OUT_NUL
  | .id _ => OUT_PRETTY
  | _ => 0

/- Main run. -/

def EXIT_SUCCESS : Nat := 0

/-- The per-run query collaborators (`ipc_*_get_info`): `none` models a
return value `< 1` (failure or empty enumeration). -/
structure QueryEnv where
  msgInfo : Int → Option (List MsgData)
  shmInfo : Int → Option (List ShmData)
  semInfo : Int → Option (List SemData)

/-- The observable outcome of a run: the projected rows, the warnings printed
to standard error, and the process exit status. -/
structure RunResult where
  rows : List (List (Option String))
  warnings : List String
  exit : Nat
deriving DecidableEq

/-- The tail of `main` for the non-`--global` path: run `do_msg` / `do_shm` /
`do_sem` for each selected class (threading the global `now` state through
in that order), then print the table and `return EXIT_SUCCESS` — the return
value does not depend on whether any per-class query warned. -/
def mainRun (env : Env) (qe : QueryEnv) (ctl : Ctl) (msg shm sem : Bool)
    (id : Int) (cols : List Nat) : RunResult :=
  let t0 : NowState := ⟨0, 0⟩
  let (r1, w1, t1) :=
    if msg then do_msg env ctl id cols (qe.msgInfo id) t0 else ([], [], t0)
  let (r2, w2, t2) :=
    if shm then do_shm env ctl id cols (qe.shmInfo id) t1 else ([], [], t1)
  let (r3, w3, _) :=
    if sem then do_sem env ctl id cols (qe.semInfo id) t2 else ([], [], t2)
  ⟨r1 ++ r2 ++ r3, w1 ++ w2 ++ w3, EXIT_SUCCESS⟩

/- Concrete test fixtures. -/

/-- A concrete directory environment used by the evaluation and witness
theorems: uid 0 is `root`, uid 100 is `alice`, gid 5 is `staff`; nothing else
resolves. -/
def testEnv : Env where
  getpwuid := fun u =>
    if u = 0 then some ⟨0, "root"⟩
    else if u = 100 then some ⟨100, "alice"⟩
    else none
  getgrgid := fun g => if g = 5 then some ⟨5, "staff"⟩ else none
  strmode := fun _ => "rw-------"
  size_to_human := fun n => toString n
  proc_get_command := fun _ => ""
  timeEnv :=
    { clock := fun _ => 2000000
      asctimeTrimmed := fun t => "full " ++ toString t
      fmtHHMM := fun t => "hm " ++ toString t
      fmtMonDay := fun t => "md " ++ toString t
      fmtYearMonDay := fun t => "ymd " ++ toString t
      fmtIso := fun t => "iso " ++ toString t }

/-- Default control flags: no special toggles, `TIME_SHORT`. -/
def testCtl : Ctl := ⟨false, false, false, false, false, .short⟩

/-- The C1 failing record: owner uid 100 / gid 5 (both with directory
entries), creator uid 0 / gid 7 (gid 7 has no directory entry). -/
def msgRecC1 : MsgData := ⟨⟨18, 3, 100, 5, 0, 7, 420⟩, 0, 0, 0, 0, 0, 0, 0⟩

/-- The C2 failing record: `SHM_LOCKED` and `SHM_HUGETLB` set, `SHM_DEST`
clear. -/
def shmRecC2 : ShmData :=
  ⟨⟨1, 1, 100, 5, 100, 5, SHM_LOCKED ||| SHM_HUGETLB⟩, 4096, 1, 0, 0, 0, 10, 11⟩

end Lsipc

namespace Lsipc

/- Theorems. -/

/-- Auxiliary: the `do_sem_global` counting loop visits exactly the
non-sentinel nodes and accumulates the head's element count once per visited
node. -/
theorem semLoopCounts_spec (hd : SemData) :
    ∀ l : List SemData,
      semLoopCounts hd l = (l.dropLast.length, l.dropLast.length * hd.sem_nsems)
  | [] => by simp [semLoopCounts]
  | [x] => by simp [semLoopCounts]
  | x :: y :: rs => by
    have ih := semLoopCounts_spec hd (y :: rs)
    simp only [semLoopCounts, ih, List.dropLast_cons₂, List.length_cons]
    rw [Prod.mk.injEq]
    exact ⟨rfl, by ring⟩

/-- C10: in semaphore summary mode, for every sentinel-terminated sequence of
semaphore sets the `SEMMNI` used value is the number of enumerated
(non-sentinel) sets, while the `SEMMNS` used value is the number of
enumerated sets multiplied by the *first* set's `sem_nsems` (the loop adds
the head's element count once per visited node), not the sum of each set's
own element count. -/
theorem C10_sem_global_counts
    (cols : List Nat) (lim : IpcLimits) (hd : SemData) (tl : List SemData) :
    do_sem_global cols lim (some (hd :: tl)) =
      [ global_set_data cols "SEMMNS" "Total number of semaphores"
          ((hd :: tl).dropLast.length * hd.sem_nsems) lim.semmns,
        global_set_data cols "SEMMNI" "Number of Semaphore IDs"
          (hd :: tl).dropLast.length lim.semmni ] := by
  simp [do_sem_global, semLoopCounts_spec]

/-- Witness for C10: two enumerated sets with 3 and 5 elements (plus the
sentinel) are reported as `SEMMNI` used `2` and `SEMMNS` used `2 * 3 = 6`
(not `3 + 5 = 8`). -/
theorem C10_sem_global_counts_witness :
    do_sem_global [COL_USED] ⟨128, 32000⟩
      (some [⟨⟨0, 0, 0, 0, 0, 0, 0⟩, 3, 0, 0⟩, ⟨⟨0, 1, 0, 0, 0, 0, 0⟩, 5, 0, 0⟩,
             ⟨⟨0, 0, 0, 0, 0, 0, 0⟩, 0, 0, 0⟩])
      = [[some "6"], [some "2"]] := by
  rw [C10_sem_global_counts]
  decide

/-- C2 (code bug): the claim requires the `STATUS` cell to join the set flag
names with a comma between *every* adjacent pair; but `comma` is incremented
only in the `SHM_DEST` branch, so a record with `locked` and `hugetlb` set
and `dest` clear yields `"lockedhugetlb"` with no separator. The other
conjuncts record the behaviour the claim gets right: no flags yields the
empty string, and with `dest` set all separators appear in the fixed order. -/
theorem C2_status_join_bug :
    shmStatus (SHM_LOCKED ||| SHM_HUGETLB) = "lockedhugetlb" ∧
    (shmCell testEnv testCtl shmRecC2 COL_STATUS ⟨none, none, ⟨0, 0⟩⟩).1 =
      some "lockedhugetlb" ∧
    shmStatus 0 = "" ∧
    shmStatus (SHM_DEST ||| SHM_LOCKED ||| SHM_HUGETLB ||| SHM_NORESERVE) =
      "dest,locked,hugetlb,noreserve" ∧
    shmStatus (SHM_LOCKED ||| SHM_NORESERVE) = "lockednoreserve" := by
  refine ⟨rfl, rfl, rfl, rfl, rfl⟩

/-- C1 (code bug): projecting the columns `CUID, UID, CGID, GID` of a
message-queue record with owner uid 100 (`alice`), owner gid 5 (`staff`),
creator uid 0 (`root`) and creator gid 7 (no entry) yields
`["root", "root", "0", "5"]`:
the `UID` cell shows `root` — the creator's identity served from the cache
the `CUID` arm overwrote — instead of `alice`;
the `CGID` cell prints the numeric *cuid* `0` instead of its own id 7; and
the `GID` cell falls back to the numeric `5` although gid 5 resolves to
`staff`, because the failed `CGID` lookup cleared the group cache.
The trailing conjuncts pin down the directory facts that make these three
cells violate the claim. -/
theorem C1_ownership_cache_bug :
    (msgRow testEnv testCtl [COL_CUID, COL_UID, COL_CGID, COL_GID] msgRecC1
        ⟨none, none, ⟨0, 0⟩⟩).1
      = [some "root", some "root", some "0", some "5"] ∧
    testEnv.getpwuid msgRecC1.msg_perm.uid = some ⟨100, "alice"⟩ ∧
    testEnv.getgrgid msgRecC1.msg_perm.gid = some ⟨5, "staff"⟩ ∧
    testEnv.getpwuid msgRecC1.msg_perm.cuid = some ⟨0, "root"⟩ ∧
    testEnv.getgrgid msgRecC1.msg_perm.cgid = none ∧
    msgRecC1.msg_perm.uid = 100 ∧ msgRecC1.msg_perm.gid = 5 ∧
    msgRecC1.msg_perm.cuid = 0 ∧ msgRecC1.msg_perm.cgid = 7 := by
  refine ⟨rfl, rfl, rfl, rfl, rfl, rfl, rfl, rfl, rfl⟩

/-- C3 (counterexample): enabling `--time` for message queues does *not*
merely append columns to the selection computed without the flag — the time
columns are inserted before `LSPID` / `LRPID`, so the flagless selection is
not a prefix of the flagged one (at index 6 the flagged list has `SEND`
where the flagless list has `LSPID`). -/
theorem C3_default_append_counterexample :
    ¬ ∃ l : List Nat,
      defaultColumns Res.msg false true = defaultColumns Res.msg false false ++ l := by
  rintro ⟨l, h⟩
  have h1 : (defaultColumns Res.msg false true)[6]? = some COL_SEND := by decide
  have h2 : (defaultColumns Res.msg false false ++ l)[6]? = some COL_LSPID := by
    rw [List.getElem?_append_left (by decide)]
    decide
  rw [h, h2] at h1
  simp [COL_SEND, COL_LSPID] at h1

/-- C3 (amended): the default column list is the fixed deterministic
class-specific sequence — for message queues `key, id, perms, owner,
[creator uid/gid, uid/gid if show-creator], used-bytes, message-count,
[send, receive, change if show-time], last-sender-pid, last-receiver-pid` —
and enabling the creator flag or the time flag *inserts* that flag's columns
at a fixed position, leaving the relative order of the columns already
present unchanged (the selection without a flag is an order-preserving
subsequence of the selection with it), rather than appending them at the
end. -/
theorem C3_default_columns_amended :
    (∀ c t : Bool,
      defaultColumns Res.msg c t =
        [COL_KEY, COL_ID, COL_PERMS, COL_OWNER]
        ++ (if c then [COL_CUID, COL_CGID, COL_UID, COL_GID] else [])
        ++ [COL_USEDBYTES, COL_MSGS]
        ++ (if t then [COL_SEND, COL_RECV, COL_CTIME] else [])
        ++ [COL_LSPID, COL_LRPID])
    ∧ (∀ (cls : Res) (c t : Bool),
        (defaultColumns cls false t).Sublist (defaultColumns cls c t)
        ∧ (defaultColumns cls c false).Sublist (defaultColumns cls c t)) :=
  ⟨by decide, by decide⟩

/-- Witness for C3 (amended): the fully flagged message-queue default list,
and the flagless list as a subsequence of the creator-flagged one. -/
theorem C3_default_columns_amended_witness :
    defaultColumns Res.msg true true =
      [COL_KEY, COL_ID, COL_PERMS, COL_OWNER, COL_CUID, COL_CGID, COL_UID, COL_GID,
       COL_USEDBYTES, COL_MSGS, COL_SEND, COL_RECV, COL_CTIME, COL_LSPID, COL_LRPID]
    ∧ (defaultColumns Res.msg false false).Sublist (defaultColumns Res.msg true false) :=
  ⟨by rw [C3_default_columns_amended.1 true true]; rfl,
   (C3_default_columns_amended.2 Res.msg true false).1⟩

/-- C5: column-name resolution for `--output` is a case-insensitive exact
match over the registry. A registry name in the generic band (ids `0..8`,
`KEY` through `CTIME`) resolves for every active resource class; a name
outside the generic band resolves exactly when its id lies in the active
class's `[LOWER, UPPER]` applicability range and otherwise fails with the
`column does not apply` diagnostic; an unmatched name fails with `unknown
column`; proper prefixes of a registry name do not match; matching ignores
case; and a list of names that resolves does so name by name, in input
order. -/
theorem C5_column_resolution :
    (∀ (cls : Res) (i : Fin 29),
      column_name_to_id (lowerOf cls) (upperOf cls) (colName i.val) =
        if i.val ≤ COL_CTIME ∨ (lowerOf cls ≤ i.val ∧ i.val ≤ upperOf cls)
        then Except.ok i.val else Except.error ColErr.notApply)
    ∧ (∀ lower upper, column_name_to_id lower upper "NOSUCHCOL" =
        Except.error ColErr.unknown)
    ∧ (∀ lower upper, column_name_to_id lower upper "KE" =
        Except.error ColErr.unknown)
    ∧ (∀ lower upper, column_name_to_id lower upper "UsedBytes" =
        column_name_to_id lower upper "USEDBYTES")
    ∧ (∀ lower upper names ids,
        string_to_idarray lower upper names = Except.ok ids →
        List.Forall₂ (fun n i => column_name_to_id lower upper n = Except.ok i)
          names ids) := by
  refine ⟨by decide, fun _ _ => rfl, fun _ _ => rfl, fun _ _ => rfl, ?_⟩
  intro lower upper names
  induction names with
  | nil =>
    intro ids h
    simp only [string_to_idarray] at h
    cases h
    exact .nil
  | cons n ns ih =>
    intro ids h
    simp only [string_to_idarray] at h
    cases hc : column_name_to_id lower upper n with
    | error e => rw [hc] at h; cases h
    | ok i =>
      rw [hc] at h
      cases hr : string_to_idarray lower upper ns with
      | error e => rw [hr] at h; cases h
      | ok js =>
        rw [hr] at h
        cases h
        exact .cons hc (ih js hr)

/-- Witness for C5: `USEDBYTES` (id 9) resolves in the message-queue band,
and the two-name list `KEY, USEDBYTES` resolves to `[0, 9]` in input order. -/
theorem C5_column_resolution_witness :
    column_name_to_id (lowerOf Res.msg) (upperOf Res.msg) (colName 9) = Except.ok 9
    ∧ List.Forall₂
        (fun n i => column_name_to_id COLDESC_IDX_MSG_FIRST COLDESC_IDX_MSG_LAST n
          = Except.ok i)
        ["KEY", "USEDBYTES"] [0, 9] :=
  ⟨by have h := C5_column_resolution.1 Res.msg ⟨9, by decide⟩; simpa using h,
   C5_column_resolution.2.2.2.2 COLDESC_IDX_MSG_FIRST COLDESC_IDX_MSG_LAST
     ["KEY", "USEDBYTES"] [0, 9] (by decide)⟩

/-- C4: for every time column of every resource class (`CTIME`, `SEND`,
`RECV` for message queues; `CTIME`, `ATTACH`, `DETACH` for shared memory;
`CTIME`, `OTIME` for semaphores), in every time-format mode and for every
environment and record, a timestamp of exactly zero leaves the cell unset
(empty, not the string "0"), while a non-zero timestamp projects to the
string produced by the shared `make_time` policy. -/
theorem C4_zero_timestamp_empty
    (env : Env) (ctl : Ctl) (s : PwGrSt) (ss : SemSt)
    (m : MsgData) (h : ShmData) (d : SemData) :
    ((msgCell env ctl m COL_CTIME s).1 =
      if m.q_ctime = 0 then none
      else some (make_time env.timeEnv ctl.time_mode m.q_ctime s.tst).1)
    ∧ ((msgCell env ctl m COL_SEND s).1 =
      if m.q_stime = 0 then none
      else some (make_time env.timeEnv ctl.time_mode m.q_stime s.tst).1)
    ∧ ((msgCell env ctl m COL_RECV s).1 =
      if m.q_rtime = 0 then none
      else some (make_time env.timeEnv ctl.time_mode m.q_rtime s.tst).1)
    ∧ ((shmCell env ctl h COL_CTIME s).1 =
      if h.shm_ctim = 0 then none
      else some (make_time env.timeEnv ctl.time_mode h.shm_ctim s.tst).1)
    ∧ ((shmCell env ctl h COL_ATTACH s).1 =
      if h.shm_atim = 0 then none
      else some (make_time env.timeEnv ctl.time_mode h.shm_atim s.tst).1)
    ∧ ((shmCell env ctl h COL_DETACH s).1 =
      if h.shm_dtim = 0 then none
      else some (make_time env.timeEnv ctl.time_mode h.shm_dtim s.tst).1)
    ∧ ((semCell env ctl d COL_CTIME ss).1 =
      if d.sem_ctime = 0 then none
      else some (make_time env.timeEnv ctl.time_mode d.sem_ctime ss.tst).1)
    ∧ ((semCell env ctl d COL_OTIME ss).1 =
      if d.sem_otime = 0 then none
      else some (make_time env.timeEnv ctl.time_mode d.sem_otime ss.tst).1) := by
  refine ⟨?_, ?_, ?_, ?_, ?_, ?_, ?_, ?_⟩ <;>
  · simp only [msgCell, shmCell, semCell]
    norm_num [COL_KEY, COL_ID, COL_OWNER, COL_PERMS, COL_CUID, COL_CGID,
      COL_UID, COL_GID, COL_CTIME, COL_USEDBYTES, COL_MSGS, COL_SEND, COL_RECV,
      COL_LSPID, COL_LRPID, COL_SIZE, COL_NATTCH, COL_STATUS, COL_ATTACH,
      COL_DETACH, COL_COMMAND, COL_CPID, COL_LPID, COL_NSEMS, COL_OTIME]
    split_ifs with hz <;> simp [hz]

/-- Witness for C4: with the concrete test fixtures, a zero `CTIME` leaves
the message-queue cell empty. -/
theorem C4_zero_timestamp_empty_witness :
    (msgCell testEnv testCtl msgRecC1 COL_CTIME ⟨none, none, ⟨0, 0⟩⟩).1 = none := by
  have h := (C4_zero_timestamp_empty testEnv testCtl ⟨none, none, ⟨0, 0⟩⟩
    ⟨none, none, none, none, ⟨0, 0⟩⟩ msgRecC1 shmRecC2
    ⟨⟨0, 0, 0, 0, 0, 0, 0⟩, 0, 0, 0⟩).1
  simpa using h

/-- C6: for every selected resource class (message queues, shared memory or
semaphores — in non-summary mode the `excl` table admits exactly one), a
detail query (`--id n`, `n > -1`) whose id does not exist in that class (the
class's query collaborator reports failure) contributes zero rows, prints
the `id not found` warning to standard error, and the process still exits
with `EXIT_SUCCESS` (the tail of `main` returns success regardless of
per-class warnings). -/
theorem C6_missing_id_success
    (env : Env) (qe : QueryEnv) (ctl : Ctl) (n : Int) (cols : List Nat)
    (hn : n > -1) :
    (qe.msgInfo n = none →
      (mainRun env qe ctl true false false n cols).rows = []
      ∧ (mainRun env qe ctl true false false n cols).warnings
          = ["id " ++ toString n ++ " not found"]
      ∧ (mainRun env qe ctl true false false n cols).exit = EXIT_SUCCESS)
    ∧ (qe.shmInfo n = none →
      (mainRun env qe ctl false true false n cols).rows = []
      ∧ (mainRun env qe ctl false true false n cols).warnings
          = ["id " ++ toString n ++ " not found"]
      ∧ (mainRun env qe ctl false true false n cols).exit = EXIT_SUCCESS)
    ∧ (qe.semInfo n = none →
      (mainRun env qe ctl false false true n cols).rows = []
      ∧ (mainRun env qe ctl false false true n cols).warnings
          = ["id " ++ toString n ++ " not found"]
      ∧ (mainRun env qe ctl false false true n cols).exit = EXIT_SUCCESS) := by
  refine ⟨fun hq => ⟨?_, ?_, ?_⟩, fun hq => ⟨?_, ?_, ?_⟩, fun hq => ⟨?_, ?_, ?_⟩⟩ <;>
    simp [mainRun, do_msg, do_shm, do_sem, hq, hn]

/-- Witness for C6: requesting the nonexistent id 42 against an empty system
yields no rows, the warning, and a success exit, for each of the three
resource classes (with the `ID` column selected). -/
theorem C6_missing_id_success_witness :
    ((mainRun testEnv ⟨fun _ => none, fun _ => none, fun _ => none⟩ testCtl
        true false false 42 [COL_ID]).rows = []
      ∧ (mainRun testEnv ⟨fun _ => none, fun _ => none, fun _ => none⟩ testCtl
          true false false 42 [COL_ID]).warnings
          = ["id " ++ toString (42 : Int) ++ " not found"]
      ∧ (mainRun testEnv ⟨fun _ => none, fun _ => none, fun _ => none⟩ testCtl
          true false false 42 [COL_ID]).exit = EXIT_SUCCESS)
    ∧ ((mainRun testEnv ⟨fun _ => none, fun _ => none, fun _ => none⟩ testCtl
        false true false 42 [COL_ID]).rows = []
      ∧ (mainRun testEnv ⟨fun _ => none, fun _ => none, fun _ => none⟩ testCtl
          false true false 42 [COL_ID]).warnings
          = ["id " ++ toString (42 : Int) ++ " not found"]
      ∧ (mainRun testEnv ⟨fun _ => none, fun _ => none, fun _ => none⟩ testCtl
          false true false 42 [COL_ID]).exit = EXIT_SUCCESS)
    ∧ ((mainRun testEnv ⟨fun _ => none, fun _ => none, fun _ => none⟩ testCtl
        false false true 42 [COL_ID]).rows = []
      ∧ (mainRun testEnv ⟨fun _ => none, fun _ => none, fun _ => none⟩ testCtl
          false false true 42 [COL_ID]).warnings
          = ["id " ++ toString (42 : Int) ++ " not found"]
      ∧ (mainRun testEnv ⟨fun _ => none, fun _ => none, fun _ => none⟩ testCtl
          false false true 42 [COL_ID]).exit = EXIT_SUCCESS) :=
  ⟨(C6_missing_id_success testEnv ⟨fun _ => none, fun _ => none, fun _ => none⟩
      testCtl 42 [COL_ID] (by decide)).1 rfl,
   (C6_missing_id_success testEnv ⟨fun _ => none, fun _ => none, fun _ => none⟩
      testCtl 42 [COL_ID] (by decide)).2.1 rfl,
   (C6_missing_id_success testEnv ⟨fun _ => none, fun _ => none, fun _ => none⟩
      testCtl 42 [COL_ID] (by decide)).2.2 rfl⟩

/-- C7: with the reference time already fetched (`now ≠ 0`), short mode
renders a non-zero timestamp as time-of-day exactly when it falls in the
current epoch-day bucket (`t / 86400`), else as month+day exactly when it
falls in the current 365-day bucket (the documented approximation), else as
year+month+day — and the decisions use the stored reference time without
fetching the clock again (the state is returned unchanged, in every mode);
from the unset state the first short-mode rendering fetches the clock once
and stores it for the rest of the run. -/
theorem C7_short_time_policy :
    (∀ (env : TimeEnv) (st : NowState) (t : Nat), st.now ≠ 0 → t ≠ 0 →
      ((t / (3600 * 24) = st.now / (3600 * 24) →
          make_time env .short t st = (env.fmtHHMM t, st))
       ∧ (t / (3600 * 24) ≠ st.now / (3600 * 24) →
          t / (3600 * 24 * 365) = st.now / (3600 * 24 * 365) →
          make_time env .short t st = (env.fmtMonDay t, st))
       ∧ (t / (3600 * 24) ≠ st.now / (3600 * 24) →
          t / (3600 * 24 * 365) ≠ st.now / (3600 * 24 * 365) →
          make_time env .short t st = (env.fmtYearMonDay t, st))))
    ∧ (∀ (env : TimeEnv) (mode : TimeMode) (st : NowState) (t : Nat),
        st.now ≠ 0 → (make_time env mode t st).2 = st)
    ∧ (∀ (env : TimeEnv) (st : NowState) (t : Nat),
        st.now = 0 → env.clock st.ticks ≠ 0 →
        ((make_time env .short t st).2).now = env.clock st.ticks) := by
  refine ⟨?_, ?_, ?_⟩
  · intro env st t hnow _
    refine ⟨?_, ?_, ?_⟩
    · intro heq
      simp [make_time, date_is_today, fetchNow, hnow, heq]
    · intro hne heq
      have hb : (t / (3600 * 24) == st.now / (3600 * 24)) = false := by
        simp [hne]
      simp [make_time, date_is_today, date_is_thisyear, fetchNow, hnow, hb, heq]
    · intro hne hne2
      have hb : (t / (3600 * 24) == st.now / (3600 * 24)) = false := by
        simp [hne]
      have hb2 : (t / (3600 * 24 * 365) == st.now / (3600 * 24 * 365)) = false := by
        simp [hne2]
      simp [make_time, date_is_today, date_is_thisyear, fetchNow, hnow, hb, hb2]
  · intro env mode st t hnow
    cases mode with
    | full => rfl
    | iso => rfl
    | short =>
      simp only [make_time, date_is_today, date_is_thisyear, fetchNow, if_neg hnow]
      split_ifs <;> rfl
  · intro env st t h0 hclk
    simp only [make_time, date_is_today, date_is_thisyear, fetchNow, if_pos h0]
    split_ifs with h1 h2 <;> simp [if_neg hclk]

/-- Witness for C7: a timestamp in the reference time's epoch-day bucket
renders as time-of-day, and a full-mode rendering leaves the fetched state
untouched. -/
theorem C7_short_time_policy_witness :
    make_time testEnv.timeEnv .short 2000000 ⟨2000000, 1⟩
      = (testEnv.timeEnv.fmtHHMM 2000000, ⟨2000000, 1⟩)
    ∧ (make_time testEnv.timeEnv .full 5 ⟨2000000, 1⟩).2 = ⟨2000000, 1⟩ :=
  ⟨(C7_short_time_policy.1 testEnv.timeEnv ⟨2000000, 1⟩ 2000000
      (by decide) (by decide)).1 rfl,
   C7_short_time_policy.2.1 testEnv.timeEnv .full ⟨2000000, 1⟩ 5 (by decide)⟩

/-- Auxiliary: the pretty-print cell walk keeps exactly the cells whose data
is set, in order. -/
theorem filterMap_pretty (l : List (Nat × Option String)) :
    (l.filterMap fun cd => cd.2.map fun d => prettyPair (prettyNameOf cd.1) d)
      = (l.filter fun cd => cd.2.isSome).map
          fun cd => prettyPair (prettyNameOf cd.1) (cd.2.getD "") := by
  induction l with
  | nil => rfl
  | cons cd rest ih =>
    obtain ⟨c, o⟩ := cd
    cases o <;> simp [List.filterMap_cons, List.filter_cons, ih]

/-- C8 (counterexample): with two selected columns of which one cell is unset
(a zero timestamp) and no trailing block, the claim as stated predicts one
`Label:` / value pair per selected column — two lines — but `print_pretty`
prints only the set cell's line (`if (dstr)` skips unset cells). -/
theorem C8_pretty_counterexample :
    (print_pretty [COL_KEY, COL_CTIME]
        (some ([some "0x00000001", none], none))).length ≠ 2 := by
  decide

/-- C8 (amended): `print_pretty` prints one `Label:` / value pair, padded to
the fixed label width, for each selected column *whose cell has data*, in
column order — columns whose cell was never set are skipped — followed by
the row's free-form trailing text block when one is present; with no row at
all nothing is printed. -/
theorem C8_pretty_skips_unset (cols : List Nat) (cells : List (Option String))
    (ud : Option String) :
    print_pretty cols (some (cells, ud))
      = (((cols.zip cells).filter fun cd => cd.2.isSome).map
          fun cd => prettyPair (prettyNameOf cd.1) (cd.2.getD ""))
        ++ ud.toList
    ∧ (print_pretty cols (some (cells, ud))).length
        = ((cols.zip cells).countP fun cd => cd.2.isSome) + ud.toList.length
    ∧ print_pretty cols none = [] := by
  refine ⟨?_, ?_, rfl⟩
  · cases ud <;> simp [print_pretty, filterMap_pretty]
  · cases ud <;>
      simp [print_pretty, filterMap_pretty, List.countP_eq_length_filter]

/-- Witness for C8 (amended): one set cell, one unset cell and a trailing
block yield exactly the set cell's pair followed by the block. -/
theorem C8_pretty_skips_unset_witness :
    print_pretty [COL_KEY, COL_CTIME] (some ([some "k", none], some "block"))
      = [prettyPair "Key" "k", "block"] := by
  rw [(C8_pretty_skips_unset [COL_KEY, COL_CTIME] [some "k", none] (some "block")).1]
  rfl

/-- C9 (counterexample): the claim says all the options of the output-mode
exclusion group write the same single global mode variable; but `--json`
only sets the `ctl->json` bit — after `--json` alone the mode variable still
holds its unset value `0`, while `--raw` stores `OUT_RAW` in it. -/
theorem C9_json_mode_counterexample :
    (parseLsipc [Opt.json]).map ParseSt.outmode = Except.ok 0
    ∧ (parseLsipc [Opt.json]).map ParseSt.json = Except.ok true
    ∧ (parseLsipc [Opt.raw]).map ParseSt.outmode = Except.ok OUT_RAW :=
  ⟨rfl, rfl, rfl⟩

/-- C9 (amended): the six options `--colon-separate`, `--export`,
`--newline`, `--raw`, `--print0`, `--json` form one mutual-exclusion group
and `--id` is not in it; the five explicit flags and `--id` write the single
global mode variable (`--json` instead sets a separate JSON bit and leaves
the mode variable untouched), so combining `--id` with a mode flag is
accepted and the effective mode is set by whichever mode-writing option
appears last: `--id N --raw` yields raw, `--raw --id N` yields pretty, and
`--id N --json` stays pretty with the JSON bit set. -/
theorem C9_mode_exclusion_last_wins :
    (∀ a ∈ modeGroupOpts, ∀ b ∈ modeGroupOpts, a ≠ b →
        parseLsipc [a, b] = Except.error ())
    ∧ (∀ (n : Int), ∀ m ∈ modeWriters,
        (parseLsipc [Opt.id n, m]).map ParseSt.outmode = Except.ok (modeSetBy m))
    ∧ (∀ (n : Int), ∀ m ∈ modeWriters,
        (parseLsipc [m, Opt.id n]).map ParseSt.outmode = Except.ok OUT_PRETTY)
    ∧ (∀ (n : Int),
        (parseLsipc [Opt.id n, Opt.json]).map (fun st => (st.outmode, st.json))
          = Except.ok (OUT_PRETTY, true)) := by
  refine ⟨?_, ?_, ?_, fun _ => rfl⟩
  · intro a ha b hb hne
    fin_cases ha <;> fin_cases hb <;>
      first
        | exact absurd rfl hne
        | rfl
  · intro n m hm
    fin_cases hm <;> rfl
  · intro n m hm
    fin_cases hm <;> rfl

/-- Witness for C9 (amended): two distinct group members conflict, and the
`--id 5 --raw` / `--raw --id 5` orders render raw and pretty respectively. -/
theorem C9_mode_exclusion_last_wins_witness :
    parseLsipc [Opt.raw, Opt.json] = Except.error ()
    ∧ (parseLsipc [Opt.id 5, Opt.raw]).map ParseSt.outmode
        = Except.ok (modeSetBy Opt.raw)
    ∧ (parseLsipc [Opt.raw, Opt.id 5]).map ParseSt.outmode = Except.ok OUT_PRETTY :=
  ⟨C9_mode_exclusion_last_wins.1 Opt.raw (by decide) Opt.json (by decide) (by decide),
   C9_mode_exclusion_last_wins.2.1 5 Opt.raw (by decide),
   C9_mode_exclusion_last_wins.2.2.1 5 Opt.raw (by decide)⟩

end Lsipc
